import Mathlib

/-!
# Tag game server: authoritative simulation core

A shallow embedding of the multiplayer tag game server (`server.js`,
viewport-aware revision).  Pixel coordinates, viewport dimensions and
millisecond timestamps are modelled as rationals; each call site of
`Math.random` is modelled by an explicit sample stream passed to the
function that consumes it.  JavaScript comparisons of the form
`Math.sqrt e < r` are embedded without the square root as
`0 < r ∧ e < r ^ 2`, which is equivalent over the reals since a square
root is nonnegative; the equivalence is proved where a claim mentions
the Euclidean distance itself.
-/

set_option maxRecDepth 100000

namespace TagGame

/-- `PLAYER_SIZE = 15`. -/
def PLAYER_SIZE : ℚ := 15

/-- `NORMAL_SPEED = 3`. -/
def NORMAL_SPEED : ℚ := 3

/-- `TAGGER_SPEED = 3.75` (1.25× faster). -/
def TAGGER_SPEED : ℚ := 3.75

/-- `FREEZE_TIME = 5000` milliseconds. -/
def FREEZE_TIME : ℚ := 5000

/-- `DEFAULT_WIDTH = 1920`. -/
def DEFAULT_WIDTH : ℚ := 1920

/-- `DEFAULT_HEIGHT = 1080`. -/
def DEFAULT_HEIGHT : ℚ := 1080

/-- A wall rectangle `{x, y, w, h}` in a given viewport's pixel units. -/
structure Wall where
  x : ℚ
  y : ℚ
  w : ℚ
  h : ℚ
deriving DecidableEq, Repr

/-- A portal `{x, y, radius, target}`; `target` indexes the same map's
portal list. -/
structure Portal where
  x : ℚ
  y : ℚ
  radius : ℚ
  target : ℕ
deriving DecidableEq, Repr

/-- The four independent boolean input flags. -/
structure Input where
  up : Bool
  down : Bool
  left : Bool
  right : Bool
deriving DecidableEq, Repr

/-- One registry entry: the fields of the player object created by the
`join` handler. -/
structure Player where
  id : String
  name : String
  x : ℚ
  y : ℚ
  color : String
  isTagger : Bool
  frozen : Bool
  frozenUntil : ℚ
  input : Input
  screenWidth : ℚ
  screenHeight : ℚ
  map : String
  walls : List Wall
deriving DecidableEq, Repr

/-- A map catalog entry: display name, wall generator, and optional
portal generator (absent `getPortals` on three of the four maps). -/
structure GameMap where
  name : String
  getWalls : ℚ → ℚ → List Wall
  getPortals : Option (ℚ → ℚ → List Portal)

/-- Map `plus`: horizontal bar and vertical bar. -/
def plusMap : GameMap where
  name := "Plus"
  getWalls := fun w h =>
    [ { x := w * 0.24, y := h * 0.477, w := w * 0.52, h := h * 0.046 },
      { x := w * 0.487, y := h * 0.222, w := w * 0.026, h := h * 0.556 } ]
  getPortals := none

/-- Map `teleport`: one central vertical divider and four linked portals
(top-left ↔ bottom-right, top-right ↔ bottom-left). -/
def teleportMap : GameMap where
  name := "Teleport"
  getWalls := fun w h =>
    [ { x := w * 0.487, y := h * 0.1, w := w * 0.026, h := h * 0.8 } ]
  getPortals := some (fun w h =>
    [ { x := w * 0.25, y := h * 0.25, radius := 40, target := 3 },
      { x := w * 0.75, y := h * 0.25, radius := 40, target := 2 },
      { x := w * 0.25, y := h * 0.75, radius := 40, target := 1 },
      { x := w * 0.75, y := h * 0.75, radius := 40, target := 0 } ])

/-- Map `corners`: four L-shaped corner obstacles. -/
def cornersMap : GameMap where
  name := "Four Corners"
  getWalls := fun w h =>
    [ { x := w * 0.156, y := h * 0.231, w := w * 0.156, h := h * 0.046 },
      { x := w * 0.156, y := h * 0.231, w := w * 0.026, h := h * 0.278 },
      { x := w * 0.688, y := h * 0.231, w := w * 0.156, h := h * 0.046 },
      { x := w * 0.818, y := h * 0.231, w := w * 0.026, h := h * 0.278 },
      { x := w * 0.156, y := h * 0.722, w := w * 0.156, h := h * 0.046 },
      { x := w * 0.156, y := h * 0.491, w := w * 0.026, h := h * 0.278 },
      { x := w * 0.688, y := h * 0.722, w := w * 0.156, h := h * 0.046 },
      { x := w * 0.818, y := h * 0.491, w := w * 0.026, h := h * 0.278 } ]
  getPortals := none

/-- Map `arena`: center obstacle plus four corner blocks. -/
def arenaMap : GameMap where
  name := "Arena"
  getWalls := fun w h =>
    [ { x := w * 0.448, y := h * 0.407, w := w * 0.104, h := h * 0.185 },
      { x := w * 0.208, y := h * 0.278, w := w * 0.052, h := h * 0.093 },
      { x := w * 0.740, y := h * 0.278, w := w * 0.052, h := h * 0.093 },
      { x := w * 0.208, y := h * 0.630, w := w * 0.052, h := h * 0.093 },
      { x := w * 0.740, y := h * 0.630, w := w * 0.052, h := h * 0.093 } ]
  getPortals := none

/-- The catalog in `Object.keys(maps)` order. -/
def mapCatalog : List (String × GameMap) :=
  [("plus", plusMap), ("teleport", teleportMap),
   ("corners", cornersMap), ("arena", arenaMap)]

/-- The body of `checkWallCollision`'s loop: axis-aligned rectangle
intersection with the player box inflated by `PLAYER_SIZE`. -/
def wallHit (x y : ℚ) (wl : Wall) : Bool :=
  decide (x + PLAYER_SIZE > wl.x ∧ x - PLAYER_SIZE < wl.x + wl.w ∧
          y + PLAYER_SIZE > wl.y ∧ y - PLAYER_SIZE < wl.y + wl.h)

/-- `checkWallCollision` applied to an explicit wall list. -/
def checkWallCollisionW (walls : List Wall) (x y : ℚ) : Bool :=
  walls.any (wallHit x y)

/-- `getWallsForPlayer(playerId)`: walls of the current map scaled to the
registered player's viewport; the empty list when the id is not in the
registry (`if (!p) return []`). -/
def getWallsForPlayer (m : GameMap) (reg : List Player) (i : String) : List Wall :=
  match reg.find? (fun p => p.id == i) with
  | none => []
  | some p => m.getWalls p.screenWidth p.screenHeight

/-- `checkWallCollision(x, y, playerId)`. -/
def checkWallCollision (m : GameMap) (reg : List Player) (x y : ℚ) (i : String) : Bool :=
  checkWallCollisionW (getWallsForPlayer m reg i) x y

/-- The do-while of `findSafeSpawn`: sample index `i` has been drawn;
while it collides and retries remain (`attempts < maxAttempts`), draw
the next sample. -/
def spawnLoop (walls : List Wall) (samples : ℕ → ℚ × ℚ) : ℕ → ℕ → ℚ × ℚ
  | i, 0 => samples i
  | i, fuel + 1 =>
    if checkWallCollisionW walls (samples i).1 (samples i).2 then
      spawnLoop walls samples (i + 1) fuel
    else samples i

/-- `findSafeSpawn` over an explicit wall list: up to 100 samples
(`maxAttempts = 100`, so 99 retries after the first draw), then the
final recheck that falls back to the viewport center. -/
def findSafeSpawnW (walls : List Wall) (screenWidth screenHeight : ℚ)
    (samples : ℕ → ℚ × ℚ) : ℚ × ℚ :=
  let p := spawnLoop walls samples 0 99
  if checkWallCollisionW walls p.1 p.2 then (screenWidth / 2, screenHeight / 2)
  else p

/-- `findSafeSpawn(playerId, screenWidth, screenHeight)`: the wall list
is looked up through `getWallsForPlayer(playerId)` against the current
registry — not computed from the `screenWidth`/`screenHeight`
arguments. -/
def findSafeSpawn (m : GameMap) (reg : List Player) (i : String)
    (screenWidth screenHeight : ℚ) (samples : ℕ → ℚ × ℚ) : ℚ × ℚ :=
  findSafeSpawnW (getWallsForPlayer m reg i) screenWidth screenHeight samples

/-- `checkCollision(p1, p2)`: positions normalized to fractions of each
player's own viewport, delta scaled back by the smaller viewport per
axis; `Math.sqrt (dx*dx + dy*dy) < PLAYER_SIZE * 2` is embedded as the
equivalent squared comparison (the bound `30` is positive). -/
def checkCollision (p1 p2 : Player) : Bool :=
  let dx := (p1.x / p1.screenWidth - p2.x / p2.screenWidth) *
              min p1.screenWidth p2.screenWidth
  let dy := (p1.y / p1.screenHeight - p2.y / p2.screenHeight) *
              min p1.screenHeight p2.screenHeight
  decide (dx ^ 2 + dy ^ 2 < (PLAYER_SIZE * 2) ^ 2)

/-- The portal-entry test `Math.sqrt (dx*dx + dy*dy) < portal.radius`,
embedded squared; the `0 < radius` conjunct keeps it equivalent to the
square-root form for every radius sign. -/
def portalHit (x y : ℚ) (pt : Portal) : Bool :=
  decide (0 < pt.radius ∧ (x - pt.x) ^ 2 + (y - pt.y) ^ 2 < pt.radius ^ 2)

/-- The loop of `checkPortalCollision`: scan `rest` in order, teleport to
`allPortals[portal.target]` on the first hit and return; `none` models
the TypeError a JavaScript out-of-range `target` index would throw. -/
def portalScan (allPortals : List Portal) (x y : ℚ) :
    List Portal → Option (ℚ × ℚ)
  | [] => some (x, y)
  | pt :: rest =>
    if portalHit x y pt then
      match allPortals[pt.target]? with
      | some tp => some (tp.x, tp.y)
      | none => none
    else portalScan allPortals x y rest

/-- `checkPortalCollision(player)`: a no-op on maps without
`getPortals`. -/
def checkPortalCollision (m : GameMap) (p : Player) : Option (ℚ × ℚ) :=
  match m.getPortals with
  | none => some (p.x, p.y)
  | some gp =>
    let ps := gp p.screenWidth p.screenHeight
    portalScan ps p.x p.y ps

/-- Game-loop lines: speed selection, sequential application of the four
input flags, per-axis clamp to `[PLAYER_SIZE, dimension - PLAYER_SIZE]`,
and atomic wall rejection; returns the player's position after the
movement stage (before the portal check). -/
def movePlayer (m : GameMap) (p : Player) : ℚ × ℚ :=
  let speed := if p.isTagger then TAGGER_SPEED else NORMAL_SPEED
  let y0 := if p.input.up then p.y - speed else p.y
  let y1 := if p.input.down then y0 + speed else y0
  let x0 := if p.input.left then p.x - speed else p.x
  let x1 := if p.input.right then x0 + speed else x0
  let newX := max PLAYER_SIZE (min (p.screenWidth - PLAYER_SIZE) x1)
  let newY := max PLAYER_SIZE (min (p.screenHeight - PLAYER_SIZE) y1)
  if checkWallCollisionW (m.getWalls p.screenWidth p.screenHeight) newX newY then
    (p.x, p.y)
  else (newX, newY)

/-- The per-player stage of the game loop: unfreeze check (`now >
frozenUntil`, strict), `continue` when frozen, movement, portal check,
and refresh of the cached `map`/`walls` fields. -/
def updatePlayer (m : GameMap) (now : ℚ) (p : Player) : Option Player :=
  let p1 := if p.frozen && decide (now > p.frozenUntil) then
              { p with frozen := false } else p
  if p1.frozen then some p1
  else
    let pos := movePlayer m p1
    let p2 := { p1 with x := pos.1, y := pos.2 }
    match checkPortalCollision m p2 with
    | none => none
    | some pos2 =>
      some { p2 with x := pos2.1, y := pos2.2,
                     map := m.name,
                     walls := m.getWalls p2.screenWidth p2.screenHeight }

/-- The inner-loop candidate test of tag detection: not a tagger, not
frozen, and touching. -/
def tagCandidate (tagger other : Player) : Bool :=
  !other.isTagger && !other.frozen && checkCollision tagger other

/-- The inner loop of tag detection: the first index `j ≠ i` (in
registry order) whose player passes `tagCandidate`. -/
def findTagTarget (reg : List Player) (i : ℕ) (tagger : Player) : Option ℕ :=
  (List.range reg.length).find? (fun j =>
    j != i && (match reg[j]? with
               | some other => tagCandidate tagger other
               | none => false))

/-- The mutation performed on a successful tag: the tagger loses the
role and is frozen until `now + FREEZE_TIME`; the touched player gains
the role and is forced unfrozen. -/
def applyTag (now : ℚ) (reg : List Player) (i j : ℕ)
    (tagger other : Player) : List Player :=
  (reg.set i { tagger with isTagger := false, frozen := true,
                           frozenUntil := now + FREEZE_TIME }).set j
    { other with isTagger := true, frozen := false }

/-- One outer-loop iteration of tag detection for registry slot `i`,
reading the registry as already mutated by earlier iterations. -/
def tagStep (now : ℚ) (reg : List Player) (i : ℕ) : List Player :=
  match reg[i]? with
  | none => reg
  | some tagger =>
    if tagger.isTagger && !tagger.frozen then
      match findTagTarget reg i tagger with
      | some j =>
        match reg[j]? with
        | some other => applyTag now reg i j tagger other
        | none => reg
      | none => reg
    else reg

/-- The tag-detection phase: the outer `for (let id in players)` loop
over the (fixed) key set, with mutations from earlier iterations visible
to later ones. -/
def tagPhase (now : ℚ) (reg : List Player) : List Player :=
  (List.range reg.length).foldl (tagStep now) reg

/-- One full game-loop tick: per-player update in registry order, then
tag detection. -/
def tick (m : GameMap) (now : ℚ) (reg : List Player) : Option (List Player) :=
  (reg.mapM (updatePlayer m now)).map (tagPhase now)

/-- The `join` handler: first joiner into an empty registry becomes the
tagger; the spawn position is found before the new entry is stored, so
`findSafeSpawn` runs against the pre-insertion registry. -/
def join (m : GameMap) (reg : List Player) (i nm color : String)
    (screenWidth screenHeight : ℚ) (samples : ℕ → ℚ × ℚ) : List Player :=
  let isFirstPlayer := reg.isEmpty
  let spawnPos := findSafeSpawn m reg i screenWidth screenHeight samples
  reg ++ [{ id := i, name := nm, x := spawnPos.1, y := spawnPos.2,
            color := color, isTagger := isFirstPlayer,
            frozen := false, frozenUntil := 0,
            input := ⟨false, false, false, false⟩,
            screenWidth := screenWidth, screenHeight := screenHeight,
            map := m.name,
            walls := m.getWalls screenWidth screenHeight }]

/-- The `disconnect` handler: remove the entry; when the tagger leaves
and players remain, a random remaining player (`pick` drawn in
`[0, remaining)`, modelled as `pick % length`) becomes the tagger with
`frozen` cleared. -/
def leave (reg : List Player) (i : String) (pick : ℕ) : List Player :=
  match reg.find? (fun p => p.id == i) with
  | none => reg
  | some p =>
    let rest := reg.filter (fun q => q.id != i)
    if p.isTagger then
      if rest.isEmpty then rest
      else
        let k := pick % rest.length
        match rest[k]? with
        | some q => rest.set k { q with isTagger := true, frozen := false }
        | none => rest
    else rest

/-- The rotation timer's do-while: keep drawing indices into the key
list until one names a map different from the current one; `none` when
the modelled randomness is exhausted. -/
def pickNewMap (keys : List String) (cur : String) : List ℕ → Option String
  | [] => none
  | k :: rest =>
    match keys[k % keys.length]? with
    | none => none
    | some nm => if nm == cur then pickNewMap keys cur rest else some nm

/-- Catalog lookup `maps[name]`. -/
def lookupMap (cat : List (String × GameMap)) (nm : String) : Option GameMap :=
  (cat.find? (fun e => e.1 == nm)).map Prod.snd

/-- The per-player body of the rotation timer: re-run `findSafeSpawn`
with the player's stored viewport and overwrite only the position. -/
def respawnPlayer (m : GameMap) (reg : List Player)
    (sampleFn : String → ℕ → ℚ × ℚ) (p : Player) : Player :=
  let pos := findSafeSpawn m reg p.id p.screenWidth p.screenHeight (sampleFn p.id)
  { p with x := pos.1, y := pos.2 }

/-- Global mutable state touched by the rotation timer. -/
structure GameState where
  reg : List Player
  currentMap : String
deriving Repr

/-- The map-rotation timer body: pick a different map, then reposition
every connected player via `findSafeSpawn` at their existing
viewport. -/
def rotateMap (cat : List (String × GameMap)) (st : GameState)
    (picks : List ℕ) (sampleFn : String → ℕ → ℚ × ℚ) : Option GameState :=
  match pickNewMap (cat.map Prod.fst) st.currentMap picks with
  | none => none
  | some nm =>
    match lookupMap cat nm with
    | none => none
    | some m =>
      some { currentMap := nm,
             reg := st.reg.map (respawnPlayer m st.reg sampleFn) }

/-- Number of registered taggers. -/
def taggerCount (reg : List Player) : ℕ :=
  reg.countP (fun p => p.isTagger)

/-- The one-tagger invariant: exactly one tagger whenever the registry
is non-empty. -/
def OneTagger (reg : List Player) : Prop :=
  reg ≠ [] → taggerCount reg = 1

/-- Convenience constructor for concrete scenarios: a registry entry at
position `(x, y)` on a `1920 × 1080` viewport with no input pressed,
unfrozen. -/
def mkPlayer (i : String) (x y : ℚ) (tag : Bool) : Player where
  id := i
  name := i
  x := x
  y := y
  color := "c"
  isTagger := tag
  frozen := false
  frozenUntil := 0
  input := ⟨false, false, false, false⟩
  screenWidth := 1920
  screenHeight := 1080
  map := "Plus"
  walls := []

/-- Like `mkPlayer`, with an explicit viewport. -/
def mkPlayerV (i : String) (x y w h : ℚ) (tag : Bool) : Player :=
  { mkPlayer i x y tag with screenWidth := w, screenHeight := h }

/-- A tagger at `(100, 100)` holding the `right` input. -/
def rightMover : Player :=
  { mkPlayer "m" 100 100 true with input := ⟨false, false, false, true⟩ }

/-- `rightMover` after one tick on map `plus` at timestamp 0. -/
def rightMoverAfter : Player :=
  { rightMover with x := 103.75, map := "Plus",
                    walls := plusMap.getWalls 1920 1080 }

/-- A one-player game state on map `plus`. -/
def soloState : GameState := ⟨[mkPlayer "a" 100 100 true], "plus"⟩

/-- `soloState` after the modelled rotation to map `teleport` with first
random sample `(100, 100)` (which is wall-free there). -/
def soloRotated : GameState := ⟨[mkPlayer "a" 100 100 true], "teleport"⟩

/-- A frozen player whose freeze expires exactly at timestamp 1000,
holding the `right` input, far from every `plus` wall. -/
def boundaryFrozenPlayer : Player :=
  { mkPlayer "f" 600 600 false with
      frozen := true, frozenUntil := 1000,
      input := ⟨false, false, false, true⟩ }

/-- Iterated game-loop position updates for a single player who is never
tagged: before the `(n+1)`-st modelled tick the stored input is replaced
by `ins n` (latest input wins) and the tick runs at timestamp
`nows n`. -/
def runTicks (m : GameMap) (ins : ℕ → Input) (nows : ℕ → ℚ) :
    ℕ → Player → Option Player
  | 0, p => some p
  | n + 1, p =>
    match updatePlayer m (nows n) { p with input := ins n } with
    | none => none
    | some q => runTicks m ins nows n q

/-!
## Theorems
-/

/-- C2: at a join, `findSafeSpawn` is called before the player is
stored, so `getWallsForPlayer` returns the empty wall list and the very
first random sample is accepted unchecked.  On map `plus` at a
`1000 × 1000` viewport, first sample `(400, 500)`: the returned position
overlaps the horizontal wall bar (per the wall-collision test at the
passed dimensions) and is not the viewport center — contradicting the
claim that the result avoids walls or falls back to the center. -/
theorem findSafeSpawn_join_ignores_walls :
    findSafeSpawn plusMap [] "a" 1000 1000 (fun _ => (400, 500)) = (400, 500) ∧
    checkWallCollisionW (plusMap.getWalls 1000 1000) 400 500 = true ∧
    ((400 : ℚ), (500 : ℚ)) ≠ ((1000 : ℚ) / 2, (1000 : ℚ) / 2) := by
  refine ⟨rfl, by with_unfolding_all rfl, by norm_num⟩

/-- C10: tag detection mutates `isTagger`/`frozen` while iterating, so
the role can transfer twice in one tick.  Concretely: `a` (tagger, at
`(100,100)`) touches `b` (at `(120,100)`) but not `c` (at `(140,100)`,
distance 40 ≥ 30); `b` touches `c`.  After one tag-detection phase `a`
has tagged `b` and `b` has immediately tagged `c`: both `a` and `b` end
frozen with `frozenUntil = now + FREEZE_TIME`, and `c` ends as the
tagger — two role swaps in a single tick. -/
theorem tagPhase_double_swap :
    checkCollision (mkPlayer "a" 100 100 true) (mkPlayer "c" 140 100 false) = false ∧
    tagPhase 0 [mkPlayer "a" 100 100 true, mkPlayer "b" 120 100 false,
                mkPlayer "c" 140 100 false] =
      [{ mkPlayer "a" 100 100 false with frozen := true, frozenUntil := 5000 },
       { mkPlayer "b" 120 100 false with frozen := true, frozenUntil := 5000 },
       mkPlayer "c" 140 100 true] := by
  refine ⟨by with_unfolding_all rfl, by with_unfolding_all rfl⟩

/-- C8 counterexample: the code unfreezes only when `now > frozenUntil`
(strict).  At the boundary `now = frozenUntil = 1000` a frozen player —
claimed by the spec to be unfrozen and moved, since `now ≥ frozenUntil`
— is returned entirely unchanged: still frozen, position untouched
despite the pressed `right` input. -/
theorem updatePlayer_boundary_keeps_frozen :
    boundaryFrozenPlayer.frozen = true ∧
    boundaryFrozenPlayer.frozenUntil ≤ 1000 ∧
    updatePlayer plusMap 1000 boundaryFrozenPlayer = some boundaryFrozenPlayer := by
  refine ⟨rfl, by norm_num [boundaryFrozenPlayer, mkPlayer], by with_unfolding_all rfl⟩

/-- A player that enters the per-player update unfrozen comes out of it
unfrozen: neither movement nor the portal check touches `frozen`. -/
theorem updatePlayer_frozen_of_unfrozen (m : GameMap) (now : ℚ)
    (p q : Player) (hf : p.frozen = false)
    (h : updatePlayer m now p = some q) : q.frozen = false := by
  unfold updatePlayer at h
  simp only [hf, Bool.false_and, Bool.false_eq_true, if_false] at h
  split at h
  · cases h
  · injection h with h
    subst h
    rfl

/-- C8 (amended): the unfreeze threshold is strict.  For a frozen
player, when `now > frozenUntil` the tick behaves exactly as for an
unfrozen player — the player moves and, having `frozen = false` in the
updated registry, is tag-eligible in the same tick's tag detection;
when `now ≤ frozenUntil` the player is returned unchanged, skipping
movement (and remaining frozen, hence tag-ineligible). -/
theorem updatePlayer_unfreeze_strict (m : GameMap) (now : ℚ) (p : Player)
    (hf : p.frozen = true) :
    (now > p.frozenUntil →
       updatePlayer m now p = updatePlayer m now { p with frozen := false } ∧
       ∀ q, updatePlayer m now p = some q → q.frozen = false) ∧
    (¬ now > p.frozenUntil → updatePlayer m now p = some p) := by
  constructor
  · intro hgt
    have hstep : updatePlayer m now p =
        updatePlayer m now { p with frozen := false } := by
      conv_lhs => rw [updatePlayer]
      have hcond : (p.frozen && decide (now > p.frozenUntil)) = true := by
        simp [hf, hgt]
      rw [hcond]
      conv_rhs => rw [updatePlayer]
      simp
    refine ⟨hstep, ?_⟩
    intro q hq
    rw [hstep] at hq
    exact updatePlayer_frozen_of_unfrozen m now _ q rfl hq
  · intro hle
    have hcond : (p.frozen && decide (now > p.frozenUntil)) = false := by
      simp [hle]
    rw [updatePlayer, hcond]
    simp [hf]

/-- C8 witness: at `now = 1001 > frozenUntil = 1000` the boundary player
is processed exactly as its unfrozen copy. -/
theorem updatePlayer_unfreeze_strict_witness :
    updatePlayer plusMap 1001 boundaryFrozenPlayer =
      updatePlayer plusMap 1001 { boundaryFrozenPlayer with frozen := false } :=
  ((updatePlayer_unfreeze_strict plusMap 1001 boundaryFrozenPlayer rfl).1
    (by norm_num [boundaryFrozenPlayer, mkPlayer])).1

/-- C5: `checkCollision` returns `true` exactly when the Euclidean norm
of the per-axis deltas — normalized to each player's own viewport and
projected back through the smaller of the two viewports per axis — is
strictly below `2 × PLAYER_SIZE`; and two players at proportionally
identical normalized positions on a `1920 × 1080` and a `960 × 540`
viewport are judged touching. -/
theorem checkCollision_normalized_distance :
    (∀ p1 p2 : Player,
      checkCollision p1 p2 = true ↔
        Real.sqrt
          ((((p1.x / p1.screenWidth - p2.x / p2.screenWidth) *
                min p1.screenWidth p2.screenWidth : ℚ) : ℝ) ^ 2 +
           (((p1.y / p1.screenHeight - p2.y / p2.screenHeight) *
                min p1.screenHeight p2.screenHeight : ℚ) : ℝ) ^ 2) <
          ((PLAYER_SIZE * 2 : ℚ) : ℝ)) ∧
    (∀ p1 p2 : Player,
      p1.screenWidth = 1920 → p1.screenHeight = 1080 →
      p2.screenWidth = 960 → p2.screenHeight = 540 →
      p1.x / 1920 = p2.x / 960 → p1.y / 1080 = p2.y / 540 →
      checkCollision p1 p2 = true) := by
  have key : ∀ p1 p2 : Player,
      checkCollision p1 p2 = true ↔
        Real.sqrt
          ((((p1.x / p1.screenWidth - p2.x / p2.screenWidth) *
                min p1.screenWidth p2.screenWidth : ℚ) : ℝ) ^ 2 +
           (((p1.y / p1.screenHeight - p2.y / p2.screenHeight) *
                min p1.screenHeight p2.screenHeight : ℚ) : ℝ) ^ 2) <
          ((PLAYER_SIZE * 2 : ℚ) : ℝ) := by
    intro p1 p2
    rw [checkCollision, decide_eq_true_iff,
        Real.sqrt_lt' (by norm_num [PLAYER_SIZE])]
    constructor <;> intro h <;> exact_mod_cast h
  refine ⟨key, ?_⟩
  intro p1 p2 hw1 hh1 hw2 hh2 hx hy
  rw [checkCollision, decide_eq_true_iff, hw1, hh1, hw2, hh2]
  have hdx : p1.x / 1920 - p2.x / 960 = 0 := by rw [hx]; ring
  have hdy : p1.y / 1080 - p2.y / 540 = 0 := by rw [hy]; ring
  rw [hdx, hdy]
  norm_num [PLAYER_SIZE]

/-- C5 witness: `(960, 540)` on `1920 × 1080` and `(480, 270)` on
`960 × 540` normalize to the same point, hence touch. -/
theorem checkCollision_normalized_distance_witness :
    checkCollision (mkPlayerV "big" 960 540 1920 1080 false)
      (mkPlayerV "small" 480 270 960 540 false) = true :=
  checkCollision_normalized_distance.2
    (mkPlayerV "big" 960 540 1920 1080 false)
    (mkPlayerV "small" 480 270 960 540 false)
    rfl rfl rfl rfl (by norm_num [mkPlayerV, mkPlayer])
    (by norm_num [mkPlayerV, mkPlayer])

/-- The scan of `checkPortalCollision` teleports according to the first
portal in list order whose entry test fires. -/
theorem portalScan_eq_find (all : List Portal) (x y : ℚ) (l : List Portal) :
    portalScan all x y l =
      match l.find? (portalHit x y) with
      | none => some (x, y)
      | some pt =>
        match all[pt.target]? with
        | some tp => some (tp.x, tp.y)
        | none => none := by
  induction l with
  | nil => rfl
  | cons pt rest ih =>
    by_cases h : portalHit x y pt = true
    · rw [portalScan, List.find?_cons_of_pos _ h, if_pos h]
    · rw [portalScan, List.find?_cons_of_neg _ (by simp [h]),
          if_neg (by simp [h]), ih]

/-- C6: on a map with portals, the portal check scans the player's own
scaled portal list in order; with no hit the position is unchanged, and
on the first hit the player is placed at the coordinates of the portal
designated by the entry portal's `target` index, the scan returning
immediately — one teleport at most per player per tick. -/
theorem checkPortalCollision_first_target (m : GameMap)
    (gp : ℚ → ℚ → List Portal) (p : Player)
    (hgp : m.getPortals = some gp) :
    ((gp p.screenWidth p.screenHeight).find? (portalHit p.x p.y) = none →
       checkPortalCollision m p = some (p.x, p.y)) ∧
    (∀ pt tp,
       (gp p.screenWidth p.screenHeight).find? (portalHit p.x p.y) = some pt →
       (gp p.screenWidth p.screenHeight)[pt.target]? = some tp →
       checkPortalCollision m p = some (tp.x, tp.y)) := by
  constructor
  · intro h
    rw [checkPortalCollision, hgp]
    simp only [portalScan_eq_find, h]
  · intro pt tp h htp
    rw [checkPortalCollision, hgp]
    simp only [portalScan_eq_find, h, htp]

/-- C6 witness: a player at the top-right portal's center on the
`teleport` map is sent to the bottom-left portal (`target = 2`), not
kept at the entry portal. -/
theorem checkPortalCollision_first_target_witness :
    checkPortalCollision teleportMap (mkPlayer "w" 1440 270 false) =
      some (480, 810) :=
  (checkPortalCollision_first_target teleportMap
      (fun w h =>
        [ { x := w * 0.25, y := h * 0.25, radius := 40, target := 3 },
          { x := w * 0.75, y := h * 0.25, radius := 40, target := 2 },
          { x := w * 0.25, y := h * 0.75, radius := 40, target := 1 },
          { x := w * 0.75, y := h * 0.75, radius := 40, target := 0 } ])
      (mkPlayer "w" 1440 270 false) rfl).2
    ⟨1440, 270, 40, 2⟩ ⟨480, 810, 40, 1⟩
    (by with_unfolding_all rfl) (by with_unfolding_all rfl)

/-- Applying one axis's two sequential input conditionals equals adding
the positive-direction displacement and subtracting the
negative-direction one. -/
theorem axisMove_eq (a s : ℚ) (u d : Bool) :
    (if d then (if u then a - s else a) + s else (if u then a - s else a)) =
      a + (if d then s else 0) - (if u then s else 0) := by
  cases u <;> cases d <;> simp <;> ring

/-- C4: each tick a non-frozen player's candidate displacement is the
speed (`3.75` for the tagger, `3` otherwise, i.e. `15/4` and `3`) added
independently per pressed axis, the candidate is clamped per axis to
`[PLAYER_SIZE, dimension - PLAYER_SIZE]` with `PLAYER_SIZE = 15`, and a
wall collision of the clamped candidate rejects both axes together,
leaving the previous position; on a map without portals the per-player
tick update places the player exactly at this movement result. -/
theorem movePlayer_clamped_atomic (m : GameMap) (p : Player) :
    (movePlayer m p =
      (let speed : ℚ := if p.isTagger then TAGGER_SPEED else NORMAL_SPEED
       let cx : ℚ := max PLAYER_SIZE (min (p.screenWidth - PLAYER_SIZE)
         (p.x + (if p.input.right then speed else 0) -
            (if p.input.left then speed else 0)))
       let cy : ℚ := max PLAYER_SIZE (min (p.screenHeight - PLAYER_SIZE)
         (p.y + (if p.input.down then speed else 0) -
            (if p.input.up then speed else 0)))
       if checkWallCollisionW (m.getWalls p.screenWidth p.screenHeight) cx cy
       then (p.x, p.y) else (cx, cy))) ∧
    TAGGER_SPEED = 15 / 4 ∧ NORMAL_SPEED = 3 ∧ PLAYER_SIZE = 15 ∧
    (∀ (now : ℚ) (q : Player), p.frozen = false → m.getPortals = none →
       updatePlayer m now p = some q → (q.x, q.y) = movePlayer m p) := by
  refine ⟨by simp only [movePlayer, axisMove_eq], by norm_num [TAGGER_SPEED],
    rfl, rfl, ?_⟩
  intro now q hf hnp hq
  unfold updatePlayer at hq
  simp only [hf, Bool.false_and, Bool.false_eq_true, if_false,
    checkPortalCollision, hnp] at hq
  injection hq with hq
  subst hq
  exact Prod.mk.eta

/-- C4 witness: the `right`-holding tagger at `(100, 100)` on `plus`
advances to `(103.75, 100)`, the movement result. -/
theorem movePlayer_clamped_atomic_witness :
    (rightMoverAfter.x, rightMoverAfter.y) = movePlayer plusMap rightMover :=
  (movePlayer_clamped_atomic plusMap rightMover).2.2.2.2 0 rightMoverAfter
    rfl rfl (by with_unfolding_all rfl)

/-- `List.find?` over `range n` returns the least index satisfying the
predicate. -/
theorem range_find?_eq_some {n j : ℕ} {p : ℕ → Bool} (hj : j < n)
    (hpj : p j = true) (hmin : ∀ k, k < j → p k = false) :
    (List.range n).find? p = some j := by
  induction n with
  | zero => exact absurd hj (Nat.not_lt_zero j)
  | succ n ih =>
    rw [List.range_succ, List.find?_append]
    rcases Nat.lt_or_ge j n with h | h
    · rw [ih h]
      rfl
    · have hjn : j = n := Nat.le_antisymm (Nat.lt_succ_iff.mp hj) h
      subst hjn
      have hnone : (List.range j).find? p = none :=
        List.find?_eq_none.mpr fun x hx => by
          simp [hmin x (List.mem_range.mp hx)]
      rw [hnone]
      simp [List.find?, hpj]

/-- C1: in the tag-detection scan for a non-frozen tagger at registry
slot `i`, if slot `j` holds the first other player (in registry order)
that is not a tagger, not frozen, and touching, then exactly one swap
happens: slot `i` keeps the tagger's fields except `isTagger := false`,
`frozen := true` and `frozenUntil := now + FREEZE_TIME`; slot `j` keeps
the touched player's fields except `isTagger := true` and
`frozen := false`; and every other slot is untouched — the scan stops at
`j`, so this tagger tags exactly one player this tick. -/
theorem tagStep_first_candidate_swap (now : ℚ) (reg : List Player)
    (i j : ℕ) (tagger other : Player)
    (hi : reg[i]? = some tagger)
    (ht : tagger.isTagger = true)
    (hnf : tagger.frozen = false)
    (hj : reg[j]? = some other)
    (hji : j ≠ i)
    (hcand : tagCandidate tagger other = true)
    (hmin : ∀ k, k < j → k ≠ i → ∀ q, reg[k]? = some q →
      tagCandidate tagger q = false) :
    (tagStep now reg i)[i]? =
      some { tagger with isTagger := false, frozen := true,
                         frozenUntil := now + FREEZE_TIME } ∧
    (tagStep now reg i)[j]? =
      some { other with isTagger := true, frozen := false } ∧
    ∀ k, k ≠ i → k ≠ j → (tagStep now reg i)[k]? = reg[k]? := by
  have hilen : i < reg.length := (List.getElem?_eq_some_iff.mp hi).1
  have hjlen : j < reg.length := (List.getElem?_eq_some_iff.mp hj).1
  have hfind : findTagTarget reg i tagger = some j := by
    unfold findTagTarget
    refine range_find?_eq_some hjlen ?_ ?_
    · rw [hj]
      simp [hji, hcand]
    · intro k hk
      by_cases hki : k = i
      · simp [hki]
      · rcases hq : reg[k]? with _ | q
        · simp [hq]
        · simp [hq, hki, hmin k hk hki q hq]
  have hstep : tagStep now reg i = applyTag now reg i j tagger other := by
    unfold tagStep
    rw [hi]
    simp only [ht, hnf, Bool.not_false, Bool.and_self, if_true, hfind, hj]
  rw [hstep]
  unfold applyTag
  refine ⟨?_, ?_, ?_⟩
  · rw [List.getElem?_set_ne hji, List.getElem?_set_eq_of_lt _ hilen]
  · rw [List.getElem?_set_eq_of_lt _ (by simpa using hjlen)]
  · intro k hki hkj
    rw [List.getElem?_set_ne (Ne.symm hkj), List.getElem?_set_ne (Ne.symm hki)]

/-- C1 witness: a touching tagger–runner pair in a two-player registry;
slot 0 becomes frozen non-tagger with `frozenUntil = 0 + FREEZE_TIME`,
slot 1 becomes the unfrozen tagger. -/
theorem tagStep_first_candidate_swap_witness :
    (tagStep 0 [mkPlayer "a" 100 100 true, mkPlayer "b" 120 100 false] 0)[0]? =
      some { mkPlayer "a" 100 100 true with
               isTagger := false, frozen := true,
               frozenUntil := 0 + FREEZE_TIME } ∧
    (tagStep 0 [mkPlayer "a" 100 100 true, mkPlayer "b" 120 100 false] 0)[1]? =
      some { mkPlayer "b" 120 100 false with
               isTagger := true, frozen := false } := by
  have h := tagStep_first_candidate_swap 0
    [mkPlayer "a" 100 100 true, mkPlayer "b" 120 100 false] 0 1
    (mkPlayer "a" 100 100 true) (mkPlayer "b" 120 100 false)
    rfl rfl rfl rfl (by omega) (by with_unfolding_all rfl)
    (fun k hk hkne => absurd (Nat.lt_one_iff.mp hk) hkne)
  exact ⟨h.1, h.2.1⟩

/-- For unfrozen players the observable outcome of the per-player update
(position, frozen flag, viewport) depends only on position, role, input
and viewport — not on the timestamp or on identity fields. -/
theorem updatePlayer_view_congr (m : GameMap) (now now' : ℚ) (p p' : Player)
    (hx : p.x = p'.x) (hy : p.y = p'.y) (ht : p.isTagger = p'.isTagger)
    (hin : p.input = p'.input) (hw : p.screenWidth = p'.screenWidth)
    (hh : p.screenHeight = p'.screenHeight)
    (hf : p.frozen = false) (hf' : p'.frozen = false) :
    (updatePlayer m now p).map
        (fun q => (q.x, q.y, q.frozen, q.screenWidth, q.screenHeight)) =
    (updatePlayer m now' p').map
        (fun q => (q.x, q.y, q.frozen, q.screenWidth, q.screenHeight)) := by
  have hmv : movePlayer m p = movePlayer m p' := by
    simp only [movePlayer, hx, hy, ht, hin, hw, hh]
  unfold updatePlayer
  simp only [hf, hf', Bool.false_and, Bool.false_eq_true, if_false]
  have hpc : checkPortalCollision m
      { p with x := (movePlayer m p).1, y := (movePlayer m p).2,
               frozen := false } =
      checkPortalCollision m
      { p' with x := (movePlayer m p').1, y := (movePlayer m p').2,
                frozen := false } := by
    unfold checkPortalCollision
    cases m.getPortals with
    | none => simp [hmv]
    | some gp =>
      dsimp only
      rw [hmv, hw, hh]
  rw [hpc]
  cases h2 : checkPortalCollision m
      { p' with x := (movePlayer m p').1, y := (movePlayer m p').2,
                frozen := false } with
  | none => simp
  | some pos2 => simp [hw, hh]

/-- C9: on the `teleport` map at the default `1920 × 1080` viewport, an
unfrozen player standing at a portal center is — whatever input is held
and whether or not they are the tagger — teleported to the linked
portal's center by the very next update (per-tick movement of at most
`3.75` per axis cannot escape the 40px portal radius), and therefore
oscillates between the two linked centers on every subsequent tick,
never exiting the portal pair by movement alone. -/
theorem teleport_portal_oscillation :
    (∀ (p : Player) (now : ℚ),
       p.screenWidth = 1920 → p.screenHeight = 1080 → p.frozen = false →
       ((p.x = 480 → p.y = 270 →
          (updatePlayer teleportMap now p).map
              (fun q => (q.x, q.y, q.frozen, q.screenWidth, q.screenHeight)) =
            some (1440, 810, false, 1920, 1080)) ∧
        (p.x = 1440 → p.y = 810 →
          (updatePlayer teleportMap now p).map
              (fun q => (q.x, q.y, q.frozen, q.screenWidth, q.screenHeight)) =
            some (480, 270, false, 1920, 1080)))) ∧
    (∀ (ins : ℕ → Input) (nows : ℕ → ℚ) (n : ℕ) (p : Player),
       p.screenWidth = 1920 → p.screenHeight = 1080 → p.frozen = false →
       p.x = 480 → p.y = 270 →
       (runTicks teleportMap ins nows n p).map
           (fun q => (q.x, q.y, q.frozen, q.screenWidth, q.screenHeight)) =
         some (if n % 2 = 0 then ((480 : ℚ), (270 : ℚ), false, (1920 : ℚ), (1080 : ℚ))
               else (1440, 810, false, 1920, 1080))) := by
  have step : ∀ (p : Player) (now : ℚ),
      p.screenWidth = 1920 → p.screenHeight = 1080 → p.frozen = false →
      ((p.x = 480 → p.y = 270 →
         (updatePlayer teleportMap now p).map
             (fun q => (q.x, q.y, q.frozen, q.screenWidth, q.screenHeight)) =
           some (1440, 810, false, 1920, 1080)) ∧
       (p.x = 1440 → p.y = 810 →
         (updatePlayer teleportMap now p).map
             (fun q => (q.x, q.y, q.frozen, q.screenWidth, q.screenHeight)) =
           some (480, 270, false, 1920, 1080))) := by
    intro p now hw hh hf
    constructor
    · intro hx hy
      rw [updatePlayer_view_congr teleportMap now 0 p
        { mkPlayer "z" 480 270 p.isTagger with input := p.input }
        (by simp [mkPlayer, hx]) (by simp [mkPlayer, hy]) (by simp [mkPlayer])
        (by simp [mkPlayer]) (by simp [mkPlayer, hw]) (by simp [mkPlayer, hh])
        hf (by simp [mkPlayer])]
      rcases hin : p.input with ⟨u, d, l, r⟩
      cases htag : p.isTagger <;> cases u <;> cases d <;> cases l <;> cases r <;>
        with_unfolding_all rfl
    · intro hx hy
      rw [updatePlayer_view_congr teleportMap now 0 p
        { mkPlayer "z" 1440 810 p.isTagger with input := p.input }
        (by simp [mkPlayer, hx]) (by simp [mkPlayer, hy]) (by simp [mkPlayer])
        (by simp [mkPlayer]) (by simp [mkPlayer, hw]) (by simp [mkPlayer, hh])
        hf (by simp [mkPlayer])]
      rcases hin : p.input with ⟨u, d, l, r⟩
      cases htag : p.isTagger <;> cases u <;> cases d <;> cases l <;> cases r <;>
        with_unfolding_all rfl
  have osc : ∀ (ins : ℕ → Input) (nows : ℕ → ℚ) (n : ℕ) (p : Player),
      p.screenWidth = 1920 → p.screenHeight = 1080 → p.frozen = false →
      ((p.x = 480 → p.y = 270 →
         (runTicks teleportMap ins nows n p).map
             (fun q => (q.x, q.y, q.frozen, q.screenWidth, q.screenHeight)) =
           some (if n % 2 = 0
                 then ((480 : ℚ), (270 : ℚ), false, (1920 : ℚ), (1080 : ℚ))
                 else (1440, 810, false, 1920, 1080))) ∧
       (p.x = 1440 → p.y = 810 →
         (runTicks teleportMap ins nows n p).map
             (fun q => (q.x, q.y, q.frozen, q.screenWidth, q.screenHeight)) =
           some (if n % 2 = 0
                 then ((1440 : ℚ), (810 : ℚ), false, (1920 : ℚ), (1080 : ℚ))
                 else (480, 270, false, 1920, 1080)))) := by
    intro ins nows n
    induction n with
    | zero =>
      intro p hw hh hf
      constructor <;> intro hx hy <;> simp [runTicks, hw, hh, hf, hx, hy]
    | succ n ih =>
      intro p hw hh hf
      have hw' : ({ p with input := ins n } : Player).screenWidth = 1920 := hw
      have hh' : ({ p with input := ins n } : Player).screenHeight = 1080 := hh
      have hf' : ({ p with input := ins n } : Player).frozen = false := hf
      constructor
      · intro hx hy
        have h1 := (step { p with input := ins n } (nows n) hw' hh' hf').1 hx hy
        simp only [runTicks]
        rcases hu : updatePlayer teleportMap (nows n)
            { p with input := ins n } with _ | q
        · rw [hu] at h1
          cases h1
        · rw [hu] at h1
          simp only [Option.map_some', Option.some.injEq, Prod.mk.injEq] at h1
          obtain ⟨hqx, hqy, hqf, hqw, hqh⟩ := h1
          have h2 := (ih q hqw hqh hqf).2 hqx hqy
          dsimp only
          rw [h2]
          rcases Nat.mod_two_eq_zero_or_one n with hpar | hpar <;>
            simp [Nat.add_mod, hpar]
      · intro hx hy
        have h1 := (step { p with input := ins n } (nows n) hw' hh' hf').2 hx hy
        simp only [runTicks]
        rcases hu : updatePlayer teleportMap (nows n)
            { p with input := ins n } with _ | q
        · rw [hu] at h1
          cases h1
        · rw [hu] at h1
          simp only [Option.map_some', Option.some.injEq, Prod.mk.injEq] at h1
          obtain ⟨hqx, hqy, hqf, hqw, hqh⟩ := h1
          have h2 := (ih q hqw hqh hqf).1 hqx hqy
          dsimp only
          rw [h2]
          rcases Nat.mod_two_eq_zero_or_one n with hpar | hpar <;>
            simp [Nat.add_mod, hpar]
  exact ⟨step, fun ins nows n p hw hh hf hx hy =>
    (osc ins nows n p hw hh hf).1 hx hy⟩

/-- C9 witness: two ticks with no input at the top-left portal center
keep the player inside the portal pair — after an even number of ticks
the player is back at the entry portal's center. -/
theorem teleport_portal_oscillation_witness :
    (runTicks teleportMap (fun _ => ⟨false, false, false, false⟩) (fun _ => 0) 2
        (mkPlayer "z" 480 270 false)).map
        (fun q => (q.x, q.y, q.frozen, q.screenWidth, q.screenHeight)) =
      some (if 2 % 2 = 0
            then ((480 : ℚ), (270 : ℚ), false, (1920 : ℚ), (1080 : ℚ))
            else (1440, 810, false, 1920, 1080)) :=
  teleport_portal_oscillation.2 (fun _ => ⟨false, false, false, false⟩)
    (fun _ => 0) 2 (mkPlayer "z" 480 270 false) rfl rfl rfl rfl rfl

/-- The per-player update never changes `isTagger`. -/
theorem updatePlayer_isTagger (m : GameMap) (now : ℚ) (p q : Player)
    (h : updatePlayer m now p = some q) : q.isTagger = p.isTagger := by
  unfold updatePlayer at h
  dsimp only at h
  split at h
  · simp only [Bool.false_eq_true, if_false] at h
    split at h
    · cases h
    · injection h with h
      subst h
      rfl
  · split at h
    · injection h with h
      subst h
      rfl
    · split at h
      · cases h
      · injection h with h
        subst h
        rfl

/-- The movement phase (`mapM` over the registry) preserves the
per-slot `isTagger` flags. -/
theorem mapM_updatePlayer_isTagger (m : GameMap) (now : ℚ)
    {l l' : List Player} (h : l.mapM (updatePlayer m now) = some l') :
    l'.map (fun p => p.isTagger) = l.map (fun p => p.isTagger) := by
  induction l generalizing l' with
  | nil =>
    rw [List.mapM_nil] at h
    injection h with h
    subst h
    rfl
  | cons a t ih =>
    rw [List.mapM_cons] at h
    cases hfa : updatePlayer m now a with
    | none => rw [hfa] at h; cases h
    | some b =>
      rw [hfa] at h
      cases hft : t.mapM (updatePlayer m now) with
      | none => rw [hft] at h; cases h
      | some bs =>
        rw [hft] at h
        simp only [Option.bind_eq_bind, Option.some_bind, Option.pure_def,
          Option.some.injEq] at h
        subst h
        simp [updatePlayer_isTagger m now a b hfa, ih hft]

/-- Equal `isTagger` maps give equal tagger counts and lengths. -/
theorem taggerCount_eq_of_map_eq {l l' : List Player}
    (h : l'.map (fun p => p.isTagger) = l.map (fun p => p.isTagger)) :
    taggerCount l' = taggerCount l ∧ l'.length = l.length := by
  have key : ∀ s : List Player,
      taggerCount s = List.countP (fun b => b) (s.map (fun p => p.isTagger)) := by
    intro s
    rw [List.countP_map]
    rfl
  constructor
  · rw [key, key, h]
  · simpa using congrArg List.length h

/-- One tag-detection iteration preserves the registry's length. -/
theorem length_tagStep (now : ℚ) (reg : List Player) (i : ℕ) :
    (tagStep now reg i).length = reg.length := by
  unfold tagStep
  split
  · rfl
  · split
    · split
      · split
        · simp [applyTag]
        · rfl
      · rfl
    · rfl

/-- Setting a tagger slot to a non-tagger and a distinct non-tagger slot
to a tagger leaves the tagger count unchanged. -/
theorem taggerCount_swap (reg : List Player) (i j : ℕ) (a b : Player)
    (hilen : i < reg.length) (hjlen : j < reg.length) (hij : i ≠ j)
    (hia : reg[i].isTagger = true) (hjb : reg[j].isTagger = false)
    (ha : a.isTagger = false) (hb : b.isTagger = true) :
    taggerCount ((reg.set i a).set j b) = taggerCount reg := by
  unfold taggerCount
  rw [List.countP_set _ _ _ _ (by simpa using hjlen),
      List.countP_set _ _ _ _ hilen,
      List.getElem_set_ne hij]
  have hpos : 0 < List.countP (fun p => p.isTagger) reg :=
    List.countP_pos.mpr ⟨reg[i], List.getElem_mem hilen, hia⟩
  simp only [hia, hjb, ha, hb, if_true, Bool.false_eq_true, if_false]
  omega

/-- One tag-detection iteration preserves the number of taggers: a swap
subtracts the tagging tagger and adds the tagged non-tagger. -/
theorem taggerCount_tagStep (now : ℚ) (reg : List Player) (i : ℕ) :
    taggerCount (tagStep now reg i) = taggerCount reg := by
  unfold tagStep
  cases hi : reg[i]? with
  | none => rfl
  | some tagger =>
    dsimp only
    by_cases hcond : (tagger.isTagger && !tagger.frozen) = true
    · rw [if_pos hcond]
      cases hfind : findTagTarget reg i tagger with
      | none => rfl
      | some j =>
        dsimp only
        have hp := List.find?_some hfind
        rw [Bool.and_eq_true] at hp
        obtain ⟨hne, hmatch⟩ := hp
        cases hj : reg[j]? with
        | none => rfl
        | some other =>
          rw [hj] at hmatch
          have hji : j ≠ i := bne_iff_ne.mp hne
          have hcand := hmatch
          unfold tagCandidate at hcand
          rw [Bool.and_eq_true, Bool.and_eq_true, Bool.not_eq_true',
              Bool.not_eq_true'] at hcand
          obtain ⟨⟨hont, _⟩, _⟩ := hcand
          have hilen : i < reg.length := (List.getElem?_eq_some_iff.mp hi).1
          have hjlen : j < reg.length := (List.getElem?_eq_some_iff.mp hj).1
          have hregi : reg[i] = tagger := (List.getElem?_eq_some_iff.mp hi).2
          have hregj : reg[j] = other := (List.getElem?_eq_some_iff.mp hj).2
          have htag : tagger.isTagger = true :=
            ((Bool.and_eq_true _ _).mp hcond).1
          exact taggerCount_swap reg i j _ _ hilen hjlen (Ne.symm hji)
            (hregi ▸ htag) (hregj ▸ hont) rfl rfl
    · rw [if_neg hcond]

/-- The whole tag-detection phase preserves the tagger count and the
registry length. -/
theorem taggerCount_tagPhase (now : ℚ) (reg : List Player) :
    taggerCount (tagPhase now reg) = taggerCount reg ∧
    (tagPhase now reg).length = reg.length := by
  unfold tagPhase
  generalize List.range reg.length = is
  induction is generalizing reg with
  | nil => exact ⟨rfl, rfl⟩
  | cons a as ih =>
    rw [List.foldl_cons]
    obtain ⟨h1, h2⟩ := ih (tagStep now reg a)
    exact ⟨h1.trans (taggerCount_tagStep now reg a),
           h2.trans (length_tagStep now reg a)⟩

/-- Removing the (unique, by id-nodup) entry found for an id splits any
count between the filtered registry and the removed entry. -/
theorem countP_filter_remove (pr : Player → Bool) (ident : String) :
    ∀ (reg : List Player) (p : Player),
      (reg.map Player.id).Nodup →
      reg.find? (fun q => q.id == ident) = some p →
      (reg.filter (fun q => q.id != ident)).countP pr
        + (if pr p then 1 else 0) = reg.countP pr := by
  intro reg
  induction reg with
  | nil => intro p _ hfind; cases hfind
  | cons a t ih =>
    intro p hnd hfind
    rw [List.map_cons, List.nodup_cons] at hnd
    obtain ⟨hna, hndt⟩ := hnd
    by_cases ha : (a.id == ident) = true
    · have hfc : List.find? (fun q => q.id == ident) (a :: t) = some a :=
        List.find?_cons_of_pos t ha
      rw [hfc] at hfind
      injection hfind with hfind
      subst hfind
      have haid : a.id = ident := by simpa using ha
      have hkeep : t.filter (fun q => q.id != ident) = t := by
        refine List.filter_eq_self.mpr fun b hb => ?_
        have hbne : b.id ≠ ident := fun hbid =>
          hna (haid ▸ hbid ▸ List.mem_map.mpr ⟨b, hb, rfl⟩)
        simpa using hbne
      rw [List.filter_cons]
      have hnpa : (a.id != ident) = false := by simp [haid]
      simp only [hnpa, Bool.false_eq_true, if_false]
      rw [hkeep, List.countP_cons]
    · have hfc : List.find? (fun q => q.id == ident) (a :: t) =
          List.find? (fun q => q.id == ident) t :=
        List.find?_cons_of_neg t ha
      rw [hfc] at hfind
      have hbeq : (a.id == ident) = false := by
        simpa using ha
      have hkeepa : (a.id != ident) = true := by simp [bne, hbeq]
      rw [List.filter_cons]
      simp only [hkeepa, if_true]
      rw [List.countP_cons, List.countP_cons]
      have := ih p hndt hfind
      omega

/-- C3, join part: a join preserves the one-tagger invariant — the first
joiner into an empty registry becomes the tagger, later joiners do
not. -/
theorem join_oneTagger (m : GameMap) (reg : List Player)
    (i nm color : String) (w h : ℚ) (samples : ℕ → ℚ × ℚ)
    (hone : OneTagger reg) :
    OneTagger (join m reg i nm color w h samples) := by
  intro _
  unfold join taggerCount
  rw [List.countP_append]
  rcases reg with _ | ⟨a, t⟩
  · simp [List.countP_cons]
  · have h1 : taggerCount (a :: t) = 1 := hone (by simp)
    unfold taggerCount at h1
    rw [h1]
    simp [List.countP_cons, List.isEmpty_cons]

/-- C3, tick part: a full game-loop tick (movement phase then tag
detection) preserves the one-tagger invariant. -/
theorem tick_oneTagger (m : GameMap) (now : ℚ) (reg reg' : List Player)
    (htick : tick m now reg = some reg') (hone : OneTagger reg) :
    OneTagger reg' := by
  unfold tick at htick
  cases hmm : reg.mapM (updatePlayer m now) with
  | none => rw [hmm] at htick; cases htick
  | some mid =>
    rw [hmm] at htick
    injection htick with htick
    subst htick
    obtain ⟨hcnt, hlen⟩ := taggerCount_eq_of_map_eq
      (mapM_updatePlayer_isTagger m now hmm)
    obtain ⟨hc2, hl2⟩ := taggerCount_tagPhase now mid
    intro hne
    have hrne : reg ≠ [] := by
      intro h0
      subst h0
      have : mid = [] := List.length_eq_zero.mp (by simpa using hlen)
      subst this
      exact hne (by simpa [List.length_eq_zero] using hl2)
    rw [hc2, hcnt]
    exact hone hrne

/-- C3, leave part: a disconnect preserves the one-tagger invariant
(given distinct registry ids), and when the tagger leaves with players
remaining, every tagger in the result (there is exactly one) has
`frozen = false`. -/
theorem leave_oneTagger (reg : List Player) (ident : String) (pick : ℕ)
    (hnd : (reg.map Player.id).Nodup) (hone : OneTagger reg) :
    OneTagger (leave reg ident pick) ∧
    (∀ p, reg.find? (fun q => q.id == ident) = some p → p.isTagger = true →
      ∀ q ∈ leave reg ident pick, q.isTagger = true → q.frozen = false) := by
  unfold leave
  cases hfind : reg.find? (fun q => q.id == ident) with
  | none =>
    exact ⟨hone, fun p hp => by cases hp⟩
  | some p =>
    dsimp only
    have hcnt := countP_filter_remove (fun q => q.isTagger) ident reg p hnd hfind
    have hregne : reg ≠ [] := by
      intro h0
      rw [h0] at hfind
      cases hfind
    have hone1 : taggerCount reg = 1 := hone hregne
    unfold taggerCount at hone1
    by_cases hpt : p.isTagger = true
    · rw [if_pos hpt]
      by_cases hre : (reg.filter (fun q => q.id != ident)).isEmpty = true
      · rw [if_pos hre]
        exact ⟨fun hc => absurd (List.isEmpty_iff.mp hre) hc,
               fun _ _ _ q hq => absurd hq (by simp [List.isEmpty_iff.mp hre])⟩
      · rw [if_neg hre]
        have hrne : reg.filter (fun q => q.id != ident) ≠ [] := by
          simpa [List.isEmpty_iff] using hre
        have hlenpos : 0 < (reg.filter (fun q => q.id != ident)).length :=
          List.length_pos.mpr hrne
        have hklt : pick % (reg.filter (fun q => q.id != ident)).length <
            (reg.filter (fun q => q.id != ident)).length :=
          Nat.mod_lt _ hlenpos
        rw [List.getElem?_eq_getElem hklt]
        dsimp only
        have hzero : (reg.filter (fun q => q.id != ident)).countP
            (fun q => q.isTagger) = 0 := by
          simp only [hpt, if_true] at hcnt
          omega
        have hnot : ∀ q ∈ reg.filter (fun q => q.id != ident),
            q.isTagger = false := by
          intro q hq
          have := List.countP_eq_zero.mp hzero q hq
          simpa using this
        constructor
        · intro _
          unfold taggerCount
          rw [List.countP_set _ _ _ _ hklt]
          simp [hzero, hnot _ (List.getElem_mem hklt)]
        · intro p' hp' _ q hq hqt
          rcases List.mem_or_eq_of_mem_set hq with hmem | rfl
          · exact absurd hqt (by simp [hnot q hmem])
          · rfl
    · have hpt' : p.isTagger = false := by simpa using hpt
      simp only [hpt', Bool.false_eq_true, if_false] at hcnt
      rw [if_neg (by simp [hpt'])]
      constructor
      · intro _
        unfold taggerCount
        omega
      · intro p' hp' hp't
        injection hp' with hp'
        subst hp'
        exact absurd hp't (by simp [hpt'])

/-- C3: whenever the registry is non-empty, exactly one player is the
tagger, and this invariant is preserved by a join (first joiner into an
empty registry becomes the tagger, later joiners do not), by the full
game-loop tick (whose tag swaps transfer the role atomically), and by a
leave (given distinct registry ids; when the tagger leaves with players
remaining, one randomly chosen remaining player becomes the tagger and
is unfrozen). -/
theorem registry_one_tagger_invariant :
    (∀ (m : GameMap) (reg : List Player) (i nm color : String) (w h : ℚ)
       (samples : ℕ → ℚ × ℚ), OneTagger reg →
       OneTagger (join m reg i nm color w h samples)) ∧
    (∀ (m : GameMap) (now : ℚ) (reg reg' : List Player),
       tick m now reg = some reg' → OneTagger reg → OneTagger reg') ∧
    (∀ (reg : List Player) (ident : String) (pick : ℕ),
       (reg.map Player.id).Nodup → OneTagger reg →
       OneTagger (leave reg ident pick) ∧
       (∀ p, reg.find? (fun q => q.id == ident) = some p →
         p.isTagger = true →
         ∀ q ∈ leave reg ident pick, q.isTagger = true → q.frozen = false)) :=
  ⟨fun m reg i nm color w h samples hone =>
      join_oneTagger m reg i nm color w h samples hone,
   fun m now reg reg' htick hone => tick_oneTagger m now reg reg' htick hone,
   fun reg ident pick hnd hone => leave_oneTagger reg ident pick hnd hone⟩

/-- C3 witness: the first joiner into the empty registry yields a
one-tagger registry, and removing the tagger from a concrete two-player
registry leaves exactly one (unfrozen) tagger. -/
theorem registry_one_tagger_invariant_witness :
    OneTagger (join plusMap [] "a" "alice" "red" 1000 1000
      (fun _ => (400, 500))) ∧
    OneTagger (leave [mkPlayer "a" 100 100 true,
                      mkPlayer "b" 120 100 false] "a" 0) := by
  constructor
  · exact registry_one_tagger_invariant.1 plusMap [] "a" "alice" "red"
      1000 1000 (fun _ => (400, 500)) (fun hc => absurd rfl hc)
  · exact (registry_one_tagger_invariant.2.2
      [mkPlayer "a" 100 100 true, mkPlayer "b" 120 100 false] "a" 0
      (by simp [mkPlayer]) (fun _ => by with_unfolding_all rfl)).1

/-- `findSafeSpawn`'s result over an explicit wall list either passes
the wall test or is exactly the viewport center. -/
theorem findSafeSpawnW_safe (walls : List Wall) (w h : ℚ)
    (samples : ℕ → ℚ × ℚ) :
    checkWallCollisionW walls (findSafeSpawnW walls w h samples).1
        (findSafeSpawnW walls w h samples).2 = false ∨
    ((findSafeSpawnW walls w h samples).1 = w / 2 ∧
     (findSafeSpawnW walls w h samples).2 = h / 2) := by
  unfold findSafeSpawnW
  by_cases hc : checkWallCollisionW walls (spawnLoop walls samples 0 99).1
      (spawnLoop walls samples 0 99).2 = true
  · right
    constructor <;> simp [hc]
  · left
    have hc' : checkWallCollisionW walls (spawnLoop walls samples 0 99).1
        (spawnLoop walls samples 0 99).2 = false := by simpa using hc
    simp [hc']

/-- The rotation timer's do-while, when it returns, names a catalog map
different from the current one. -/
theorem pickNewMap_ne (keys : List String) (cur : String) :
    ∀ (picks : List ℕ) (nm : String),
      pickNewMap keys cur picks = some nm → nm ≠ cur ∧ nm ∈ keys := by
  intro picks
  induction picks with
  | nil => intro nm hp; cases hp
  | cons k rest ih =>
    intro nm hp
    unfold pickNewMap at hp
    cases hk : keys[k % keys.length]? with
    | none => rw [hk] at hp; cases hp
    | some c =>
      rw [hk] at hp
      dsimp only at hp
      by_cases hc : (c == cur) = true
      · rw [if_pos hc] at hp
        exact ih nm hp
      · rw [if_neg hc] at hp
        injection hp with hp
        subst hp
        obtain ⟨hlt, heq⟩ := List.getElem?_eq_some_iff.mp hk
        exact ⟨by simpa using hc, heq ▸ List.getElem_mem hlt⟩

/-- C7: a successful map rotation switches to a map different from the
previously active one (chosen from the catalog), replaces every
connected player's position by a fresh `findSafeSpawn` result at that
player's own viewport — a position that passes the wall test of the new
map or is the exact viewport-center fallback — and leaves every other
player field (role, freeze state, input, name, color, viewport)
unchanged. -/
theorem rotateMap_spec (cat : List (String × GameMap)) (st : GameState)
    (picks : List ℕ) (sampleFn : String → ℕ → ℚ × ℚ) (st' : GameState)
    (hrot : rotateMap cat st picks sampleFn = some st')
    (hids : ∀ p ∈ st.reg, st.reg.find? (fun q => q.id == p.id) = some p) :
    st'.currentMap ≠ st.currentMap ∧
    st'.currentMap ∈ cat.map Prod.fst ∧
    ∃ m, lookupMap cat st'.currentMap = some m ∧
      st'.reg = st.reg.map (respawnPlayer m st.reg sampleFn) ∧
      ∀ p ∈ st.reg,
        (respawnPlayer m st.reg sampleFn p).id = p.id ∧
        (respawnPlayer m st.reg sampleFn p).name = p.name ∧
        (respawnPlayer m st.reg sampleFn p).color = p.color ∧
        (respawnPlayer m st.reg sampleFn p).isTagger = p.isTagger ∧
        (respawnPlayer m st.reg sampleFn p).frozen = p.frozen ∧
        (respawnPlayer m st.reg sampleFn p).frozenUntil = p.frozenUntil ∧
        (respawnPlayer m st.reg sampleFn p).input = p.input ∧
        (respawnPlayer m st.reg sampleFn p).screenWidth = p.screenWidth ∧
        (respawnPlayer m st.reg sampleFn p).screenHeight = p.screenHeight ∧
        (checkWallCollisionW (m.getWalls p.screenWidth p.screenHeight)
            (respawnPlayer m st.reg sampleFn p).x
            (respawnPlayer m st.reg sampleFn p).y = false ∨
         ((respawnPlayer m st.reg sampleFn p).x = p.screenWidth / 2 ∧
          (respawnPlayer m st.reg sampleFn p).y = p.screenHeight / 2)) := by
  unfold rotateMap at hrot
  cases hpk : pickNewMap (cat.map Prod.fst) st.currentMap picks with
  | none => rw [hpk] at hrot; cases hrot
  | some nm =>
    rw [hpk] at hrot
    dsimp only at hrot
    cases hlm : lookupMap cat nm with
    | none => rw [hlm] at hrot; cases hrot
    | some m =>
      rw [hlm] at hrot
      dsimp only at hrot
      injection hrot with hrot
      subst hrot
      obtain ⟨hne, hmem⟩ := pickNewMap_ne _ _ picks nm hpk
      refine ⟨hne, hmem, m, hlm, rfl, ?_⟩
      intro p hp
      refine ⟨rfl, rfl, rfl, rfl, rfl, rfl, rfl, rfl, rfl, ?_⟩
      have hgw : getWallsForPlayer m st.reg p.id =
          m.getWalls p.screenWidth p.screenHeight := by
        unfold getWallsForPlayer
        rw [hids p hp]
      show checkWallCollisionW (m.getWalls p.screenWidth p.screenHeight)
          (findSafeSpawn m st.reg p.id p.screenWidth p.screenHeight
            (sampleFn p.id)).1
          (findSafeSpawn m st.reg p.id p.screenWidth p.screenHeight
            (sampleFn p.id)).2 = false ∨
        ((findSafeSpawn m st.reg p.id p.screenWidth p.screenHeight
            (sampleFn p.id)).1 = p.screenWidth / 2 ∧
         (findSafeSpawn m st.reg p.id p.screenWidth p.screenHeight
            (sampleFn p.id)).2 = p.screenHeight / 2)
      unfold findSafeSpawn
      rw [hgw]
      exact findSafeSpawnW_safe (m.getWalls p.screenWidth p.screenHeight)
        p.screenWidth p.screenHeight (sampleFn p.id)

/-- C7 witness: rotating the one-player `plus` state with pick index 1
lands on `teleport`, a catalog map different from `plus`. -/
theorem rotateMap_spec_witness :
    soloRotated.currentMap ≠ soloState.currentMap ∧
    soloRotated.currentMap ∈ mapCatalog.map Prod.fst := by
  have h := rotateMap_spec mapCatalog soloState [1] (fun _ _ => (100, 100))
    soloRotated (by with_unfolding_all rfl)
    (by
      intro p hp
      have hp' : p = mkPlayer "a" 100 100 true := List.mem_singleton.mp hp
      subst hp'
      with_unfolding_all rfl)
  exact ⟨h.1, h.2.1⟩

end TagGame
